import Mathlib

/-!
Shallow embedding of `actix-http/src/response.rs`: the `Response` envelope,
the `ResponseBuilder` with its deferred-error slot, the body variants, and
the cookie delta staging used by the builder's terminal calls.

Header names and values are modelled as strings; a header map is an ordered
association list, matching the ordered multi-map behaviour the code relies
on (`append`, `insert`, `get_all`, `remove`, `contains_key`).  Machine
details that the code delegates to external collaborators (byte-level
header-value validation, cookie text formatting, JSON serialization) are
modelled as explicit functions or parameters.
-/

set_option autoImplicit false

namespace ActixResponse

/-- Lower-cased name of the `Set-Cookie` header (`header::SET_COOKIE`). -/
def SET_COOKIE : String := "set-cookie"

/-- Lower-cased name of the `Content-Type` header (`header::CONTENT_TYPE`). -/
def CONTENT_TYPE : String := "content-type"

/-- Lower-cased name of the `Upgrade` header (`header::UPGRADE`). -/
def UPGRADE : String := "upgrade"

/-- Characters accepted inside an encoded header value: horizontal tab or a
visible byte that is neither a control character nor DEL.  This models the
byte-level validation `HeaderValue::from_str` / `try_into` performs (an
external collaborator of `response.rs`). -/
def isValidValueChar (c : Char) : Bool :=
  c = Char.ofNat 9 || (32 ≤ c.toNat && c.toNat ≠ 127)

/-- `HeaderValue::from_str` / `IntoHeaderValue::try_into`: succeeds exactly
when every character of the string is a legal header-value character. -/
def tryHeaderValue (s : String) : Option String :=
  if s.data.all isValidValueChar then some s else none

/-- Characters accepted in a header name token. -/
def isTokenChar (c : Char) : Bool :=
  let n := c.toNat
  (48 ≤ n && n ≤ 57) || (65 ≤ n && n ≤ 90) || (97 ≤ n && n ≤ 122) ||
    c = Char.ofNat 45 || c = Char.ofNat 95

/-- `HeaderName::try_from`: succeeds exactly when the string is a nonempty
token. -/
def tryHeaderName (s : String) : Option String :=
  if !s.data.isEmpty && s.data.all isTokenChar then some s else none

/-- Ordered header multi-map, a list of (name, value) pairs. -/
abbrev Headers := List (String × String)

/-- `HeaderMap::append`: add the pair at the end, keeping existing values. -/
def appendHeader (h : Headers) (k v : String) : Headers := h ++ [(k, v)]

/-- `HeaderMap::remove`: drop every pair with the given name. -/
def removeKey (h : Headers) (k : String) : Headers :=
  h.filter (fun kv => !(kv.1 == k))

/-- `HeaderMap::insert`: replace all values for the name with the new one. -/
def insertHeader (h : Headers) (k v : String) : Headers :=
  removeKey h k ++ [(k, v)]

/-- `HeaderMap::get_all`: values stored for the name, in insertion order. -/
def getAll (h : Headers) (k : String) : List String :=
  (h.filter (fun kv => kv.1 == k)).map Prod.snd

/-- `HeaderMap::contains_key`. -/
def containsKey (h : Headers) (k : String) : Bool :=
  h.any (fun kv => kv.1 == k)

/-- Connection type of a response head (spec §3: KeepAlive, Close, Upgrade,
Unset). -/
inductive ConnectionType where
  | KeepAlive
  | Close
  | Upgrade
  | Unset
  deriving DecidableEq, Repr

/-- Modelled from the spec: `ResponseHead` (from `message.rs`, outside this
source unit) holds version, status, optional reason, header multi-map,
connection type and the no-chunking flag.  The version is `11` for HTTP/1.1
(the default) and `10` for HTTP/1.0. -/
structure ResponseHead where
  version : Nat
  status : Nat
  reason : Option String
  headers : Headers
  ctype : ConnectionType
  no_chunking : Bool
  deriving DecidableEq, Repr

/-- `Message::<ResponseHead>::new()`: default head, HTTP/1.1 status 200. -/
def Message.new : ResponseHead :=
  { version := 11, status := 200, reason := none, headers := [],
    ctype := ConnectionType.Unset, no_chunking := false }

/-- `ResponseHead::set_connection_type`. -/
def ResponseHead.set_connection_type (h : ResponseHead) (c : ConnectionType) :
    ResponseHead :=
  { h with ctype := c }

/-- Modelled from the spec: `keep_alive()` is derived (not stored) from the
connection type; `Close` forces it off, `KeepAlive` on, `Upgrade` off, and
when unset it follows the HTTP version's default (on from HTTP/1.1). -/
def ResponseHead.keep_alive (h : ResponseHead) : Bool :=
  match h.ctype with
  | ConnectionType.KeepAlive => true
  | ConnectionType.Close => false
  | ConnectionType.Upgrade => false
  | ConnectionType.Unset => 11 ≤ h.version

/-- Modelled from the spec: `upgrade()` is true iff the connection type is
`Upgrade`. -/
def ResponseHead.upgrade (h : ResponseHead) : Bool :=
  match h.ctype with
  | ConnectionType.Upgrade => true
  | _ => false

/-- The closed body variant (spec §3): empty, fixed-size bytes (held here as
a string of bytes), or a streaming payload whose lazily produced chunks
belong to an external collaborator and are identified by a tag. -/
inductive Body where
  | Empty
  | Sized (data : String)
  | Streaming (tag : Nat)
  deriving DecidableEq, Repr

/-- `ResponseBody<B>`: either a typed body `B` or a plain `Body`. -/
inductive ResponseBody (B : Type) where
  | Body (b : B)
  | Other (b : Body)
  deriving DecidableEq, Repr

/-- Header-encoding faults (`http::Error`) latched by the builder. -/
inductive HttpError where
  | invalidHeaderName (s : String)
  | invalidHeaderValue (s : String)
  deriving DecidableEq, Repr

/-- Domain faults that can convert to an error response (`crate::error::Error`):
a latched header-encoding fault or a JSON serialization fault. -/
inductive Error where
  | http (e : HttpError)
  | json (msg : String)
  deriving DecidableEq, Repr

/-- `Response<B>`: head, body, and the optional originating error. -/
structure Response (B : Type) where
  head : ResponseHead
  body : ResponseBody B
  error : Option Error
  deriving DecidableEq, Repr

/-- Modelled from the spec: `error.as_response_error().error_response()`
(error-to-response conversion, §6) produces a plain error response — a fresh
head carrying the error status with no headers, and an empty body. -/
def Error.error_response (_e : Error) : Response Body :=
  { head := { Message.new with status := 500 },
    body := ResponseBody.Other Body.Empty,
    error := none }

/-- `Response::from_error`: the error's own response with the error stored. -/
def Response.from_error (e : Error) : Response Body :=
  let resp := e.error_response
  { resp with error := some e }

/-- `Response::into_body::<B2>`: move the held `Body` into the `Other` arm. -/
def Response.into_body {B2 : Type} (r : Response Body) : Response B2 :=
  let b := match r.body with
    | ResponseBody.Body b => b
    | ResponseBody.Other b => b
  { head := r.head, error := r.error, body := ResponseBody.Other b }

/-- `Response::drop_body`: replace the body with the unit body.  Note the
source rebuilds the struct with `error: None`. -/
def Response.drop_body {B : Type} (r : Response B) : Response Unit :=
  { head := r.head, body := ResponseBody.Body (), error := none }

/-- Modelled from the spec: `ResponseBody::take_body` (from `body.rs`,
outside this source unit) extracts the current body and leaves Empty in its
place. -/
def ResponseBody.take_body {B : Type} (rb : ResponseBody B) :
    ResponseBody B × ResponseBody B :=
  (rb, ResponseBody.Other Body.Empty)

/-- `Response::take_body`: delegate to the body slot's `take_body`, giving
back the extracted body and the updated response. -/
def Response.take_body {B : Type} (r : Response B) :
    ResponseBody B × Response B :=
  let p := r.body.take_body
  (p.1, { r with body := p.2 })

/-- `Response::upgrade`. -/
def Response.upgrade {B : Type} (r : Response B) : Bool := r.head.upgrade

/-- `Response::keep_alive`. -/
def Response.keep_alive {B : Type} (r : Response B) : Bool := r.head.keep_alive

/-- Loop body of `Response::del_cookie`: walk the saved `Set-Cookie` values,
counting and skipping those that parse to the doomed name, re-appending the
rest (including unparsable values) in order.  `parse` abstracts
`v.to_str()` composed with `Cookie::parse_encoded(..).name()` (external
collaborators). -/
def delCookieLoop (parse : String → Option String) (name : String) :
    List String → Headers → Nat → Nat × Headers
  | [], h, count => (count, h)
  | v :: rest, h, count =>
    match parse v with
    | some n =>
      if n = name then delCookieLoop parse name rest h (count + 1)
      else delCookieLoop parse name rest (appendHeader h SET_COOKIE v) count
    | none => delCookieLoop parse name rest (appendHeader h SET_COOKIE v) count

/-- `Response::del_cookie`: collect the `Set-Cookie` values, remove the key,
then re-append every value that does not parse as a cookie with the given
name; returns the number removed alongside the updated response. -/
def Response.del_cookie {B : Type} (parse : String → Option String)
    (name : String) (r : Response B) : Nat × Response B :=
  let vals := getAll r.head.headers SET_COOKIE
  let h0 := removeKey r.head.headers SET_COOKIE
  let p := delCookieLoop parse name vals h0 0
  (p.1, { r with head := { r.head with headers := p.2 } })

/-- A cookie staged with the builder: name, value and the attributes the
shown code exercises (domain, path, HttpOnly, Secure, Max-Age seconds). -/
structure Cookie where
  name : String
  value : String
  domain : Option String
  path : Option String
  http_only : Bool
  secure : Bool
  max_age : Option Nat
  deriving DecidableEq, Repr

/-- Modelled from the spec: cookie text formatting (`cookie.to_string()`,
an external collaborator) — the full attribute list for an addition, in the
order the shown end-to-end expectation pins: `name=value; HttpOnly; Secure;
Path=p; Domain=d; Max-Age=n`. -/
def Cookie.render (c : Cookie) : String :=
  c.name ++ "=" ++ c.value ++
    (if c.http_only then "; HttpOnly" else "") ++
    (if c.secure then "; Secure" else "") ++
    (match c.path with | some p => "; Path=" ++ p | none => "") ++
    (match c.domain with | some d => "; Domain=" ++ d | none => "") ++
    (match c.max_age with | some n => "; Max-Age=" ++ toString n | none => "")

/-- Modelled from the spec: the immediate-expiry wire form for a removal —
an emptied value with `Max-Age=0`, keeping only the path/domain identity of
the doomed cookie. -/
def Cookie.render_removal (c : Cookie) : String :=
  c.name ++ "=; Max-Age=0" ++
    (match c.path with | some p => "; Path=" ++ p | none => "") ++
    (match c.domain with | some d => "; Domain=" ++ d | none => "")

/-- A pending cookie action: stage an addition or stage a removal. -/
inductive JarAction where
  | add (c : Cookie)
  | remove (c : Cookie)
  deriving DecidableEq, Repr

/-- Set the action stored for a name, replacing in place when the name is
already staged, otherwise appending at the end (staging order). -/
def setAssoc : List (String × JarAction) → String → JarAction →
    List (String × JarAction)
  | [], k, a => [(k, a)]
  | (k1, a1) :: rest, k, a =>
    if k1 = k then (k, a) :: rest else (k1, a1) :: setAssoc rest k a

/-- Drop the action stored for a name. -/
def delAssoc : List (String × JarAction) → String → List (String × JarAction)
  | [], _ => []
  | (k1, a1) :: rest, k =>
    if k1 = k then delAssoc rest k else (k1, a1) :: delAssoc rest k

/-- Replace the baseline cookie stored for a name, or append it. -/
def setOriginal : List Cookie → Cookie → List Cookie
  | [], c => [c]
  | c1 :: rest, c => if c1.name = c.name then c :: rest else c1 :: setOriginal rest c

/-- Modelled from the spec: the cookie delta state (`CookieJar`, an external
collaborator the builder drives) — a baseline map of original cookies and a
map of pending actions, kept in staging order. -/
structure CookieJar where
  original : List Cookie
  pending : List (String × JarAction)
  deriving DecidableEq, Repr

/-- `CookieJar::new`. -/
def CookieJar.new : CookieJar := { original := [], pending := [] }

/-- Modelled from the spec: `CookieJar::add` stages an addition for the
cookie's name. -/
def CookieJar.add (j : CookieJar) (c : Cookie) : CookieJar :=
  { j with pending := setAssoc j.pending c.name (JarAction.add c) }

/-- Modelled from the spec: `CookieJar::add_original` records the cookie in
the baseline without staging any action. -/
def CookieJar.add_original (j : CookieJar) (c : Cookie) : CookieJar :=
  { j with original := setOriginal j.original c }

/-- Modelled from the spec: `CookieJar::remove` stages an immediate-expiry
removal when the name has a baseline entry, and otherwise merely unstages
any pending addition for it. -/
def CookieJar.remove (j : CookieJar) (c : Cookie) : CookieJar :=
  if j.original.any (fun c1 => c1.name = c.name) then
    { j with pending := setAssoc j.pending c.name (JarAction.remove c) }
  else
    { j with pending := delAssoc j.pending c.name }

/-- Modelled from the spec: `CookieJar::delta` — one wire entry per pending
action in staging order: the full rendering for additions, the
immediate-expiry rendering for removals; unchanged originals emit nothing. -/
def CookieJar.delta (j : CookieJar) : List String :=
  j.pending.map (fun p =>
    match p.2 with
    | JarAction.add c => c.render
    | JarAction.remove c => c.render_removal)

/-- `ResponseBuilder`: optional head (taken by the terminal call), the
deferred-error slot, and the optional staged cookie jar. -/
structure ResponseBuilder where
  head : Option ResponseHead
  err : Option HttpError
  cookies : Option CookieJar
  deriving DecidableEq, Repr

/-- `ResponseBuilder::new`: fresh default head carrying the status. -/
def ResponseBuilder.new (status : Nat) : ResponseBuilder :=
  { head := some { Message.new with status := status },
    err := none, cookies := none }

/-- The `parts` helper: the head is handed out for mutation only while no
error is latched and the head has not been consumed. -/
def parts (head : Option ResponseHead) (err : Option HttpError) :
    Option ResponseHead :=
  if err.isSome then none else head

/-- `ResponseBuilder::status`. -/
def ResponseBuilder.status (rb : ResponseBuilder) (s : Nat) : ResponseBuilder :=
  match parts rb.head rb.err with
  | some p => { rb with head := some { p with status := s } }
  | none => rb

/-- `ResponseBuilder::header`: try the name, then the value; on failure latch
the fault, on success append the pair. -/
def ResponseBuilder.header (rb : ResponseBuilder) (key v : String) :
    ResponseBuilder :=
  match parts rb.head rb.err with
  | none => rb
  | some p =>
    match tryHeaderName key with
    | none => { rb with err := some (HttpError.invalidHeaderName key) }
    | some k =>
      match tryHeaderValue v with
      | none => { rb with err := some (HttpError.invalidHeaderValue v) }
      | some w =>
        { rb with head := some { p with headers := appendHeader p.headers k w } }

/-- `ResponseBuilder::set_header`: like `header` but replaces the values. -/
def ResponseBuilder.set_header (rb : ResponseBuilder) (key v : String) :
    ResponseBuilder :=
  match parts rb.head rb.err with
  | none => rb
  | some p =>
    match tryHeaderName key with
    | none => { rb with err := some (HttpError.invalidHeaderName key) }
    | some k =>
      match tryHeaderValue v with
      | none => { rb with err := some (HttpError.invalidHeaderValue v) }
      | some w =>
        { rb with head := some { p with headers := insertHeader p.headers k w } }

/-- `ResponseBuilder::reason`. -/
def ResponseBuilder.reason (rb : ResponseBuilder) (r : String) : ResponseBuilder :=
  match parts rb.head rb.err with
  | some p => { rb with head := some { p with reason := some r } }
  | none => rb

/-- `ResponseBuilder::keep_alive`. -/
def ResponseBuilder.keep_alive (rb : ResponseBuilder) : ResponseBuilder :=
  match parts rb.head rb.err with
  | some p =>
    { rb with head := some (p.set_connection_type ConnectionType.KeepAlive) }
  | none => rb

/-- `ResponseBuilder::force_close`. -/
def ResponseBuilder.force_close (rb : ResponseBuilder) : ResponseBuilder :=
  match parts rb.head rb.err with
  | some p => { rb with head := some (p.set_connection_type ConnectionType.Close) }
  | none => rb

/-- `ResponseBuilder::no_chunking`. -/
def ResponseBuilder.no_chunking (rb : ResponseBuilder) : ResponseBuilder :=
  match parts rb.head rb.err with
  | some p => { rb with head := some { p with no_chunking := true } }
  | none => rb

/-- `ResponseBuilder::upgrade`: set the connection type, then `set_header`
the `Upgrade` header with the supplied value. -/
def ResponseBuilder.upgrade (rb : ResponseBuilder) (v : String) : ResponseBuilder :=
  let rb1 := match parts rb.head rb.err with
    | some p =>
      { rb with head := some (p.set_connection_type ConnectionType.Upgrade) }
    | none => rb
  rb1.set_header UPGRADE v

/-- `ResponseBuilder::content_type`: try the value; on failure latch the
fault, on success insert it under `Content-Type`. -/
def ResponseBuilder.content_type (rb : ResponseBuilder) (v : String) :
    ResponseBuilder :=
  match parts rb.head rb.err with
  | none => rb
  | some p =>
    match tryHeaderValue v with
    | none => { rb with err := some (HttpError.invalidHeaderValue v) }
    | some w =>
      { rb with head := some { p with headers := insertHeader p.headers CONTENT_TYPE w } }

/-- `ResponseBuilder::cookie`: stage an addition, creating the jar first if
none exists.  Note there is no `parts` guard here. -/
def ResponseBuilder.cookie (rb : ResponseBuilder) (c : Cookie) : ResponseBuilder :=
  match rb.cookies with
  | none => { rb with cookies := some (CookieJar.new.add c) }
  | some jar => { rb with cookies := some (jar.add c) }

/-- `ResponseBuilder::del_cookie`: ensure a jar, mark the cookie original,
then stage its removal.  Note there is no `parts` guard here. -/
def ResponseBuilder.del_cookie (rb : ResponseBuilder) (c : Cookie) :
    ResponseBuilder :=
  let jar := match rb.cookies with
    | none => CookieJar.new
    | some jar => jar
  { rb with cookies := some ((jar.add_original c).remove c) }

/-- The cookie-merge loop of `message_body`: encode each delta entry into a
header value and append it under `Set-Cookie`; the first entry that fails to
encode aborts the merge with its fault. -/
def appendCookies (h : Headers) : List String → Except HttpError Headers
  | [] => Except.ok h
  | v :: rest =>
    match tryHeaderValue v with
    | some w => appendCookies (appendHeader h SET_COOKIE w) rest
    | none => Except.error (HttpError.invalidHeaderValue v)

/-- The delta entries staged on a builder (empty when no jar exists). -/
def entriesOf : Option CookieJar → List String
  | none => []
  | some jar => jar.delta

/-- `ResponseBuilder::message_body`, the terminal call.  The builder's state
after the call is returned alongside the outcome; `none` stands for the
`expect("cannot reuse response builder")` panic.  Order as in the source:
take a latched fault first; then take the head (panicking when absent); then
run the cookie merge, any failure of which becomes an error response; else
assemble the response. -/
def ResponseBuilder.message_body {B : Type} (rb : ResponseBuilder) (body : B) :
    ResponseBuilder × Option (Response B) :=
  match rb.err with
  | some e =>
    ({ rb with err := none },
      some ((Response.from_error (Error.http e)).into_body))
  | none =>
    match rb.head with
    | none => (rb, none)
    | some h =>
      let rb1 : ResponseBuilder := { rb with head := none }
      match appendCookies h.headers (entriesOf rb.cookies) with
      | Except.ok hs =>
        (rb1, some { head := { h with headers := hs },
                     body := ResponseBody.Body body, error := none })
      | Except.error e =>
        (rb1, some ((Response.from_error (Error.http e)).into_body))

/-- `ResponseBuilder::body` at `B = Body` (the `Into<Body>` conversion has
already happened). -/
def ResponseBuilder.body (rb : ResponseBuilder) (b : Body) :
    ResponseBuilder × Option (Response Body) :=
  rb.message_body b

/-- `ResponseBuilder::streaming`: wrap the stream (identified by its tag) as
a streaming body. -/
def ResponseBuilder.streaming (rb : ResponseBuilder) (tag : Nat) :
    ResponseBuilder × Option (Response Body) :=
  rb.body (Body.Streaming tag)

/-- `ResponseBuilder::finish`: empty body. -/
def ResponseBuilder.finish (rb : ResponseBuilder) :
    ResponseBuilder × Option (Response Body) :=
  rb.body Body.Empty

/-- `ResponseBuilder::json2` (and `json`, which delegates to it).  The
serialization outcome of `serde_json::to_string` (an external collaborator)
is passed in: on success, append `Content-Type: application/json` only when
no content type is present (a consumed head or latched fault counts as
present), then finalize with the serialized string as the body; on failure,
convert the fault straight into an error response, leaving the builder
untouched. -/
def ResponseBuilder.json2 (rb : ResponseBuilder) (ser : Except String String) :
    ResponseBuilder × Option (Response Body) :=
  match ser with
  | Except.ok s =>
    let contains := match parts rb.head rb.err with
      | some p => containsKey p.headers CONTENT_TYPE
      | none => true
    let rb1 := if !contains then rb.header CONTENT_TYPE "application/json" else rb
    rb1.body (Body.Sized s)
  | Except.error msg => (rb, some (Response.from_error (Error.json msg)))

/-! Helper lemmas about the header map and the cookie merge. -/

theorem getAll_append (h1 h2 : Headers) (k : String) :
    getAll (h1 ++ h2) k = getAll h1 k ++ getAll h2 k := by
  simp [getAll, List.filter_append]

theorem tryHeaderValue_of_isSome (v : String)
    (h : (tryHeaderValue v).isSome = true) : tryHeaderValue v = some v := by
  unfold tryHeaderValue at h ⊢
  split at h
  · simp_all
  · simp_all

/-- All delta entries encode successfully. -/
def entriesOk (es : List String) : Bool :=
  es.all (fun v => (tryHeaderValue v).isSome)

theorem appendCookies_ok (es : List String) (h : Headers)
    (he : entriesOk es = true) :
    appendCookies h es = Except.ok (h ++ es.map (fun v => (SET_COOKIE, v))) := by
  induction es generalizing h with
  | nil => simp [appendCookies]
  | cons v rest ih =>
    simp only [entriesOk, List.all_cons, Bool.and_eq_true] at he
    have hv := tryHeaderValue_of_isSome v he.1
    have hrest : entriesOk rest = true := he.2
    simp only [appendCookies, hv, appendHeader]
    rw [ih (h ++ [(SET_COOKIE, v)]) hrest]
    simp

theorem getAll_cookiePairs_ne (vs : List String) (k : String)
    (hk : k ≠ SET_COOKIE) :
    getAll (vs.map (fun v => (SET_COOKIE, v))) k = [] := by
  have hb : (SET_COOKIE == k) = false := by
    simp only [beq_eq_false_iff_ne, ne_eq]
    exact fun hh => hk hh.symm
  induction vs with
  | nil => simp [getAll]
  | cons v rest ih => simpa [getAll, hb] using ih

theorem getAll_cookiePairs_self (vs : List String) :
    getAll (vs.map (fun v => (SET_COOKIE, v))) SET_COOKIE = vs := by
  induction vs with
  | nil => simp [getAll]
  | cons v rest ih => simpa [getAll] using ih

theorem getAll_of_not_containsKey (h : Headers) (k : String)
    (hc : containsKey h k = false) : getAll h k = [] := by
  induction h with
  | nil => simp [getAll]
  | cons kv rest ih =>
    simp only [containsKey, List.any_cons, Bool.or_eq_false_iff] at hc
    have hrest : getAll rest k = [] := ih hc.2
    simpa [getAll, hc.1] using hrest

theorem getAll_removeKey_self (h : Headers) (k : String) :
    getAll (removeKey h k) k = [] := by
  induction h with
  | nil => simp [getAll, removeKey]
  | cons kv rest ih =>
    by_cases hh : kv.1 = k
    · simp [getAll, removeKey, hh, ih]
    · have hb : (kv.1 == k) = false := by simp [hh]
      simp [getAll, removeKey, hb, ih]

theorem getAll_removeKey_ne (h : Headers) (k k1 : String) (hk : k1 ≠ k) :
    getAll (removeKey h k) k1 = getAll h k1 := by
  induction h with
  | nil => simp [getAll, removeKey]
  | cons kv rest ih =>
    by_cases hkv : kv.1 = k
    · have h1 : (kv.1 == k) = true := by simp [hkv]
      have h2 : (kv.1 == k1) = false := by
        simp only [beq_eq_false_iff_ne, ne_eq]
        exact fun hh => hk (hh ▸ hkv)
      simpa [getAll, removeKey, h1, h2] using ih
    · have h1 : (kv.1 == k) = false := by simp [hkv]
      by_cases h2 : kv.1 = k1
      · have h2b : (kv.1 == k1) = true := by simp [h2]
        simpa [getAll, removeKey, h1, h2b] using ih
      · have h2b : (kv.1 == k1) = false := by simp [h2]
        simpa [getAll, removeKey, h1, h2b] using ih

/-! Claim theorems. -/

/-- A string containing a control byte, rejected by header-value encoding. -/
def badVal : String := "\x00"

/-- A builder that latched a header-encoding fault from one bad header. -/
def latchedBuilder : ResponseBuilder :=
  (ResponseBuilder.new 200).header "x-test" badVal

/-- C6: Response::drop_body and Response::into_body change only the body's
generic representation and leave the head and the stored error unchanged —
refuted: `drop_body` rebuilds the response with `error: None`, erasing the
stored originating error (here on a response carrying a JSON fault). -/
theorem c6_counterexample :
    ((Response.from_error (Error.json "boom")).drop_body).error ≠
      (Response.from_error (Error.json "boom")).error := by
  decide

/-- C6 (amended): `into_body` preserves both the head and the stored error;
`drop_body` preserves the head but clears the stored error to `None`. -/
theorem c6_amended_body_transforms {C : Type} {B : Type} (r : Response Body)
    (q : Response B) :
    (@Response.into_body C r).head = r.head ∧
    (@Response.into_body C r).error = r.error ∧
    q.drop_body.head = q.head ∧
    q.drop_body.error = none :=
  ⟨rfl, rfl, rfl, rfl⟩

/-- C7: on a serialization fault, `json2` (and `json`) immediately converts
the fault to an error response: the builder is returned untouched (so the
deferred-error slot is never consulted, the head is not consumed, and no
cookie merge runs), and the outcome depends only on the fault. -/
theorem c7_json_serialization_fault (rb : ResponseBuilder) (msg : String) :
    rb.json2 (Except.error msg) =
      (rb, some (Response.from_error (Error.json msg))) :=
  rfl

/-- C8: the first `take_body` returns the current body and leaves Empty in
the slot; a second call returns Empty and leaves the response unchanged, so
every subsequent call keeps returning Empty without faulting. -/
theorem c8_take_body_idempotent {B : Type} (r : Response B) :
    (r.take_body).1 = r.body ∧
    (r.take_body).2.body = ResponseBody.Other Body.Empty ∧
    ((r.take_body).2.take_body).1 = ResponseBody.Other Body.Empty ∧
    ((r.take_body).2.take_body).2 = (r.take_body).2 :=
  ⟨rfl, rfl, rfl, rfl⟩

/-- C9: for every ResponseBuilder, `force_close` then finalizing yields
`keep_alive() == false` — refuted: on a builder with a latched fault,
`force_close` is a no-op and the terminal call returns the error response,
whose fresh head has an unset connection type on HTTP/1.1, so its
`keep_alive()` is true. -/
theorem c9_counterexample :
    ((latchedBuilder.force_close).finish).2.map Response.keep_alive
      = some true := by
  decide

/-- C9 (amended): on every builder whose deferred-error slot is empty, whose
head is unconsumed, and whose staged cookies all encode, `force_close` then
finalizing yields a response whose `keep_alive()` is false, and
`upgrade("websocket")` then finalizing yields `upgrade()` true with the
`Upgrade` header equal to `"websocket"`; with a latched fault the terminal
call returns the error response instead. -/
theorem c9_amended_connection_flags (rb : ResponseBuilder) (hd : ResponseHead)
    (h1 : rb.err = none) (h2 : rb.head = some hd)
    (h3 : entriesOk (entriesOf rb.cookies) = true) :
    ((rb.force_close).finish).2.map Response.keep_alive = some false ∧
    ((rb.upgrade "websocket").finish).2.map
        (fun r => (r.upgrade, getAll r.head.headers UPGRADE))
      = some (true, ["websocket"]) := by
  obtain ⟨bhd, err, cks⟩ := rb
  simp only at h1 h2 h3
  subst h1
  subst h2
  have hsc : UPGRADE ≠ SET_COOKIE := by decide
  have hn1 : tryHeaderName UPGRADE = some UPGRADE := by decide
  have hv1 : tryHeaderValue "websocket" = some "websocket" := by decide
  constructor
  · have hok := appendCookies_ok (entriesOf cks) hd.headers h3
    simp [ResponseBuilder.force_close, parts,
      ResponseHead.set_connection_type, ResponseBuilder.finish,
      ResponseBuilder.body, ResponseBuilder.message_body, hok,
      Response.keep_alive, ResponseHead.keep_alive]
  · have hok := appendCookies_ok (entriesOf cks)
      (removeKey hd.headers UPGRADE ++ [(UPGRADE, "websocket")]) h3
    have hone : getAll [(UPGRADE, "websocket")] UPGRADE = ["websocket"] := by
      decide
    simp [ResponseBuilder.upgrade, ResponseBuilder.set_header, parts,
      ResponseHead.set_connection_type, hn1, hv1, ResponseBuilder.finish,
      ResponseBuilder.body, ResponseBuilder.message_body, hok,
      Response.upgrade, ResponseHead.upgrade, getAll_append,
      getAll_cookiePairs_ne _ _ hsc, insertHeader, getAll_removeKey_self,
      hone]
    simpa [getAll] using getAll_cookiePairs_ne (entriesOf cks) UPGRADE hsc

/-- C9 witness: the amended statement on a fresh builder. -/
theorem c9_amended_witness :
    (ResponseBuilder.new 200).err = none ∧
    (ResponseBuilder.new 200).head = some Message.new ∧
    entriesOk (entriesOf (ResponseBuilder.new 200).cookies) = true ∧
    ((((ResponseBuilder.new 200).force_close).finish).2.map
        Response.keep_alive = some false ∧
      (((ResponseBuilder.new 200).upgrade "websocket").finish).2.map
        (fun r => (r.upgrade, getAll r.head.headers UPGRADE))
        = some (true, ["websocket"])) :=
  ⟨by decide, by decide, by decide,
    c9_amended_connection_flags (ResponseBuilder.new 200) Message.new
      (by decide) (by decide) (by decide)⟩

/-- C1: with a fault latched in the deferred-error slot, every terminal call
(`message_body`, `body`, `streaming`, `finish`) returns the response
synthesized from that fault alone — the right-hand sides mention neither the
partially-built head, nor the supplied body, nor the staged cookies. -/
theorem c1_latched_fault_terminal {B : Type} (rb : ResponseBuilder)
    (e : HttpError) (b : B) (b2 : Body) (tag : Nat)
    (h : rb.err = some e) :
    (rb.message_body b).2 = some ((Response.from_error (Error.http e)).into_body) ∧
    (rb.body b2).2 = some ((Response.from_error (Error.http e)).into_body) ∧
    (rb.streaming tag).2 = some ((Response.from_error (Error.http e)).into_body) ∧
    (rb.finish).2 = some ((Response.from_error (Error.http e)).into_body) := by
  obtain ⟨hd, err, cks⟩ := rb
  simp only at h
  subst h
  simp [ResponseBuilder.message_body, ResponseBuilder.body,
    ResponseBuilder.streaming, ResponseBuilder.finish]

/-- C1 witness: a concrete builder with a latched invalid header value. -/
theorem c1_witness :
    latchedBuilder.err = some (HttpError.invalidHeaderValue badVal) ∧
    ((latchedBuilder.message_body Body.Empty).2 =
        some ((Response.from_error (Error.http (HttpError.invalidHeaderValue badVal))).into_body) ∧
      (latchedBuilder.body (Body.Sized "payload")).2 =
        some ((Response.from_error (Error.http (HttpError.invalidHeaderValue badVal))).into_body) ∧
      (latchedBuilder.streaming 7).2 =
        some ((Response.from_error (Error.http (HttpError.invalidHeaderValue badVal))).into_body) ∧
      (latchedBuilder.finish).2 =
        some ((Response.from_error (Error.http (HttpError.invalidHeaderValue badVal))).into_body)) :=
  ⟨by decide,
    c1_latched_fault_terminal latchedBuilder (HttpError.invalidHeaderValue badVal)
      Body.Empty (Body.Sized "payload") 7 (by decide)⟩

/-- A concrete cookie used by concrete instances. -/
def cookieC : Cookie :=
  { name := "C", value := "3", domain := none, path := none,
    http_only := false, secure := false, max_age := none }

/-- C2: once a fault is latched, every subsequent header- and
cookie-mutating call leaves the builder's head and pending cookie state
unchanged — refuted: `cookie` has no `parts` guard, so it still mutates the
pending cookie state of a latched builder. -/
theorem c2_counterexample :
    (latchedBuilder.cookie cookieC).cookies ≠ latchedBuilder.cookies := by
  decide

/-- C2 (amended): once a fault is latched, the slot keeps the first fault
and every header-mutating call of the claim's list is a complete no-op;
`cookie` and `del_cookie` leave the head and the latched fault unchanged
(though they may still mutate the pending cookie state), and they cannot
change the outcome of the terminal call. -/
theorem c2_amended_latched_mutators {B : Type} (rb : ResponseBuilder)
    (e : HttpError) (s : Nat) (k v r1 : String) (c : Cookie) (b : B)
    (h : rb.err = some e) :
    rb.status s = rb ∧
    rb.header k v = rb ∧
    rb.set_header k v = rb ∧
    rb.content_type v = rb ∧
    rb.reason r1 = rb ∧
    rb.keep_alive = rb ∧
    rb.force_close = rb ∧
    rb.no_chunking = rb ∧
    (rb.cookie c).head = rb.head ∧
    (rb.cookie c).err = rb.err ∧
    (rb.del_cookie c).head = rb.head ∧
    (rb.del_cookie c).err = rb.err ∧
    ((rb.cookie c).message_body b).2 = (rb.message_body b).2 ∧
    ((rb.del_cookie c).message_body b).2 = (rb.message_body b).2 := by
  obtain ⟨hd, err, cks⟩ := rb
  simp only at h
  subst h
  refine ⟨?_, ?_, ?_, ?_, ?_, ?_, ?_, ?_, ?_, ?_, ?_, ?_, ?_, ?_⟩ <;>
    cases cks <;>
      simp [ResponseBuilder.status, ResponseBuilder.header,
        ResponseBuilder.set_header, ResponseBuilder.content_type,
        ResponseBuilder.reason, ResponseBuilder.keep_alive,
        ResponseBuilder.force_close, ResponseBuilder.no_chunking,
        ResponseBuilder.cookie, ResponseBuilder.del_cookie,
        ResponseBuilder.message_body, parts]

/-- C2 witness: the amended statement at a concrete latched builder. -/
theorem c2_amended_witness :
    latchedBuilder.err = some (HttpError.invalidHeaderValue badVal) ∧
    (latchedBuilder.status 404 = latchedBuilder ∧
      latchedBuilder.header "x-other" "v" = latchedBuilder ∧
      latchedBuilder.set_header "x-other" "v" = latchedBuilder ∧
      latchedBuilder.content_type "v" = latchedBuilder ∧
      latchedBuilder.reason "gone" = latchedBuilder ∧
      latchedBuilder.keep_alive = latchedBuilder ∧
      latchedBuilder.force_close = latchedBuilder ∧
      latchedBuilder.no_chunking = latchedBuilder ∧
      (latchedBuilder.cookie cookieC).head = latchedBuilder.head ∧
      (latchedBuilder.cookie cookieC).err = latchedBuilder.err ∧
      (latchedBuilder.del_cookie cookieC).head = latchedBuilder.head ∧
      (latchedBuilder.del_cookie cookieC).err = latchedBuilder.err ∧
      ((latchedBuilder.cookie cookieC).message_body Body.Empty).2 =
        (latchedBuilder.message_body Body.Empty).2 ∧
      ((latchedBuilder.del_cookie cookieC).message_body Body.Empty).2 =
        (latchedBuilder.message_body Body.Empty).2) :=
  ⟨by decide,
    c2_amended_latched_mutators latchedBuilder
      (HttpError.invalidHeaderValue badVal) 404 "x-other" "v" "gone" cookieC
      Body.Empty (by decide)⟩

/-- C3: a second terminal call on an already-consumed builder always panics
and never constructs a Response — refuted: when the first terminal call
returned through the deferred-error path, the head was never taken, and a
second terminal call constructs a Response instead of panicking. -/
theorem c3_counterexample :
    ((latchedBuilder.finish).2).isSome = true ∧
    (((latchedBuilder.finish).1).finish).2.isSome = true := by
  decide

/-- C3 (amended): when the first terminal call actually consumed the head —
that is, the deferred-error slot was empty and the head still present — the
first call yields a Response and a second terminal call panics
(`expect("cannot reuse response builder")`) without constructing one. -/
theorem c3_amended_reuse_panics {B : Type} (rb : ResponseBuilder) (b b2 : B)
    (h1 : rb.err = none) (h2 : rb.head.isSome = true) :
    (rb.message_body b).2.isSome = true ∧
    ((rb.message_body b).1.message_body b2).2 = none := by
  obtain ⟨hd, err, cks⟩ := rb
  simp only at h1 h2
  subst h1
  match hd, h2 with
  | some h, _ =>
    cases happ : appendCookies h.headers (entriesOf cks) <;>
      simp [ResponseBuilder.message_body, happ]

/-- C3 witness: a fresh builder, consumed once, panics on the second call. -/
theorem c3_amended_witness :
    (ResponseBuilder.new 200).err = none ∧
    (ResponseBuilder.new 200).head.isSome = true ∧
    (((ResponseBuilder.new 200).message_body Body.Empty).2.isSome = true ∧
      (((ResponseBuilder.new 200).message_body Body.Empty).1.message_body
          Body.Empty).2 = none) :=
  ⟨by decide, by decide,
    c3_amended_reuse_panics (ResponseBuilder.new 200) Body.Empty Body.Empty
      (by decide) (by decide)⟩

/-- C4: `json2` on serialization success always leaves a preset Content-Type
unchanged and makes the body bytes exactly the serialized value — refuted:
on a builder with a latched header fault, the final `body` call returns the
latched-fault error response, whose body is not the serialized value. -/
theorem c4_counterexample :
    latchedBuilder.err.isSome = true ∧
    (latchedBuilder.json2 (Except.ok "[\x22v1\x22]")).2.map Response.body ≠
      some (ResponseBody.Body (Body.Sized "[\x22v1\x22]")) := by
  decide

/-- C4 (amended): on a builder whose deferred-error slot is empty, whose
head is unconsumed, and whose staged cookies all encode, `json2` on
serialization success yields a response whose Content-Type values are the
preset ones when any were present and exactly `application/json` otherwise,
and whose body is exactly the serialized string. -/
theorem c4_amended_json_content_type (rb : ResponseBuilder) (hd : ResponseHead)
    (s : String) (h1 : rb.err = none) (h2 : rb.head = some hd)
    (h3 : entriesOk (entriesOf rb.cookies) = true) :
    (rb.json2 (Except.ok s)).2.map
        (fun r => (getAll r.head.headers CONTENT_TYPE, r.body)) =
      some ((if containsKey hd.headers CONTENT_TYPE then
              getAll hd.headers CONTENT_TYPE
            else ["application/json"]),
        ResponseBody.Body (Body.Sized s)) := by
  obtain ⟨bhd, err, cks⟩ := rb
  simp only at h1 h2 h3
  subst h1
  subst h2
  have hno : CONTENT_TYPE ≠ SET_COOKIE := by decide
  have hpair : ∀ vs : List String,
      getAll (vs.map (fun v => (SET_COOKIE, v))) CONTENT_TYPE = [] :=
    fun vs => getAll_cookiePairs_ne vs CONTENT_TYPE hno
  by_cases hc : containsKey hd.headers CONTENT_TYPE = true
  · have hok := appendCookies_ok (entriesOf cks) hd.headers h3
    simp [ResponseBuilder.json2, parts, hc, ResponseBuilder.body,
      ResponseBuilder.message_body, hok, getAll_append, hpair]
  · have hcf : containsKey hd.headers CONTENT_TYPE = false := by
      simpa using hc
    have hok := appendCookies_ok (entriesOf cks)
      (hd.headers ++ [(CONTENT_TYPE, "application/json")]) h3
    have hn1 : tryHeaderName CONTENT_TYPE = some CONTENT_TYPE := by decide
    have hv1 : tryHeaderValue "application/json" = some "application/json" := by
      decide
    have hz : getAll hd.headers CONTENT_TYPE = [] :=
      getAll_of_not_containsKey _ _ hcf
    have hone : getAll [(CONTENT_TYPE, "application/json")] CONTENT_TYPE =
        ["application/json"] := by decide
    simp [ResponseBuilder.json2, parts, hcf, ResponseBuilder.header, hn1, hv1,
      ResponseBuilder.body, ResponseBuilder.message_body, appendHeader, hok,
      List.append_assoc, getAll_append, hpair, hz, hone]
    simpa [getAll] using hpair (entriesOf cks)

/-- The head of a builder that preset `Content-Type: text/json`. -/
def presetHead : ResponseHead :=
  { Message.new with headers := [(CONTENT_TYPE, "text/json")] }

/-- The builder that preset `Content-Type: text/json`. -/
def presetBuilder : ResponseBuilder :=
  (ResponseBuilder.new 200).header CONTENT_TYPE "text/json"

/-- C4 witness: preset `Content-Type: text/json` survives and the body is
the serialized bytes, on a concrete clean builder. -/
theorem c4_amended_witness :
    presetBuilder.err = none ∧
    presetBuilder.head = some presetHead ∧
    entriesOk (entriesOf presetBuilder.cookies) = true ∧
    (presetBuilder.json2 (Except.ok "[\x22v1\x22]")).2.map
        (fun r => (getAll r.head.headers CONTENT_TYPE, r.body)) =
      some ((if containsKey presetHead.headers CONTENT_TYPE then
              getAll presetHead.headers CONTENT_TYPE
            else ["application/json"]),
        ResponseBody.Body (Body.Sized "[\x22v1\x22]")) :=
  ⟨by decide, by decide, by decide,
    c4_amended_json_content_type presetBuilder presetHead
      "[\x22v1\x22]" (by decide) (by decide) (by decide)⟩

theorem setOriginal_exists_self (l : List Cookie) (c : Cookie) :
    ∃ x ∈ setOriginal l c, x.name = c.name := by
  induction l with
  | nil => exact ⟨c, by simp [setOriginal], rfl⟩
  | cons c1 rest ih =>
    by_cases hh : c1.name = c.name
    · exact ⟨c, by simp [setOriginal, hh], rfl⟩
    · obtain ⟨x, hx, hxn⟩ := ih
      exact ⟨x, by simp [setOriginal, hh, hx], hxn⟩

/-- C5: staging against an original baseline — with `ca` and `cb` marked
original, `cc` freshly added and `ca` then removed — the terminal call emits
exactly one full-attribute entry for the addition `cc` and one
immediate-expiry entry for the removal of `ca`, in staging order; the
untouched original `cb` contributes nothing (the emitted list does not
mention it). -/
theorem c5_cookie_delta_emission (hd : ResponseHead) (ca cb cc : Cookie)
    (hne : cc.name ≠ ca.name)
    (hva : (tryHeaderValue cc.render).isSome = true)
    (hvb : (tryHeaderValue ca.render_removal).isSome = true) :
    (((({ head := some hd, err := none,
          cookies := some ((CookieJar.new.add_original ca).add_original cb) } :
        ResponseBuilder).cookie cc).del_cookie ca).finish).2.map
        (fun r => (getAll r.head.headers SET_COOKIE, r.body, r.head.status)) =
      some (getAll hd.headers SET_COOKIE ++ [cc.render, ca.render_removal],
            ResponseBody.Body Body.Empty, hd.status) := by
  have hja : ∃ x ∈ setOriginal (setOriginal (setOriginal [] ca) cb) ca,
      x.name = ca.name := setOriginal_exists_self _ ca
  have hpend : setAssoc [(cc.name, JarAction.add cc)] ca.name
      (JarAction.remove ca) =
      [(cc.name, JarAction.add cc), (ca.name, JarAction.remove ca)] := by
    simp [setAssoc, hne]
  have hok : entriesOk [cc.render, ca.render_removal] = true := by
    simp [entriesOk, hva, hvb]
  have happ := appendCookies_ok [cc.render, ca.render_removal] hd.headers hok
  simp [ResponseBuilder.cookie, ResponseBuilder.del_cookie, CookieJar.add,
    CookieJar.add_original, CookieJar.remove, CookieJar.new, setAssoc, hja,
    hne, hpend, ResponseBuilder.finish, ResponseBuilder.body,
    ResponseBuilder.message_body, entriesOf, CookieJar.delta, happ,
    getAll_append, getAll_cookiePairs_self]
  simp [getAll]

/-- Baseline cookie A=1. -/
def cookieA : Cookie :=
  { name := "A", value := "1", domain := none, path := none,
    http_only := false, secure := false, max_age := none }

/-- Baseline cookie B=2. -/
def cookieB : Cookie :=
  { name := "B", value := "2", domain := none, path := none,
    http_only := false, secure := false, max_age := none }

/-- C5 witness: baseline {A=1, B=2} marked original, stage add(C=3) and
remove(A): exactly the full entry for C and the expiry entry for A. -/
theorem c5_witness :
    cookieC.name ≠ cookieA.name ∧
    (tryHeaderValue cookieC.render).isSome = true ∧
    (tryHeaderValue cookieA.render_removal).isSome = true ∧
    (((({ head := some Message.new, err := none,
          cookies := some ((CookieJar.new.add_original cookieA).add_original
            cookieB) } :
        ResponseBuilder).cookie cookieC).del_cookie cookieA).finish).2.map
        (fun r => (getAll r.head.headers SET_COOKIE, r.body, r.head.status)) =
      some (getAll Message.new.headers SET_COOKIE ++
              [cookieC.render, cookieA.render_removal],
            ResponseBody.Body Body.Empty, Message.new.status) :=
  ⟨by decide, by decide, by decide,
    c5_cookie_delta_emission Message.new cookieA cookieB cookieC (by decide)
      (by decide) (by decide)⟩

theorem delCookieLoop_spec (parse : String → Option String) (name : String)
    (vs : List String) (h : Headers) (c : Nat) :
    delCookieLoop parse name vs h c =
      (c + (vs.filter (fun v => parse v == some name)).length,
       h ++ (vs.filter (fun v => !(parse v == some name))).map
         (fun v => (SET_COOKIE, v))) := by
  induction vs generalizing h c with
  | nil => simp [delCookieLoop]
  | cons v rest ih =>
    cases hp : parse v with
    | none =>
      have hb : (parse v == some name) = false := by rw [hp]; rfl
      simp [delCookieLoop, hp, hb, appendHeader, ih]
    | some n =>
      by_cases hn : n = name
      · subst hn
        have hb : (parse v == some n) = true := by rw [hp]; simp
        simp [delCookieLoop, hp, hb, ih]
        omega
      · have hb : (parse v == some name) = false := by
          rw [hp]; simp [hn]
        simp [delCookieLoop, hp, hn, hb, appendHeader, ih]

/-- C10: `Response::del_cookie(name)` removes exactly the `Set-Cookie`
values that parse as a cookie named `name` (for any parse function standing
for `to_str` + `Cookie::parse_encoded`), returns how many it removed,
re-appends every other value — unparsable ones included — in their original
relative order, and leaves every other header name's values unchanged. -/
theorem c10_del_cookie {B : Type} (parse : String → Option String)
    (name : String) (r : Response B) (k : String) (hk : k ≠ SET_COOKIE) :
    (r.del_cookie parse name).1 =
      ((getAll r.head.headers SET_COOKIE).filter
        (fun v => parse v == some name)).length ∧
    getAll (r.del_cookie parse name).2.head.headers SET_COOKIE =
      (getAll r.head.headers SET_COOKIE).filter
        (fun v => !(parse v == some name)) ∧
    getAll (r.del_cookie parse name).2.head.headers k =
      getAll r.head.headers k := by
  have hloop := delCookieLoop_spec parse name (getAll r.head.headers SET_COOKIE)
    (removeKey r.head.headers SET_COOKIE) 0
  refine ⟨?_, ?_, ?_⟩
  · simp [Response.del_cookie, hloop]
  · simp [Response.del_cookie, hloop, getAll_append, getAll_removeKey_self,
      getAll_cookiePairs_self]
  · simp [Response.del_cookie, hloop, getAll_append,
      getAll_removeKey_ne _ _ _ hk, getAll_cookiePairs_ne _ _ hk]

/-- A concrete parse function for the witness: recognizes `a=1` and `b=2`. -/
def parseDemo (s : String) : Option String :=
  if s = "a=1" then some "a" else if s = "b=2" then some "b" else none

/-- A response carrying three `Set-Cookie` values (one unparsable) and one
other header. -/
def cookieResponse : Response Body :=
  { head := { Message.new with headers :=
      [(SET_COOKIE, "a=1"), (CONTENT_TYPE, "text/plain"),
       (SET_COOKIE, "b=2"), (SET_COOKIE, "junk")] },
    body := ResponseBody.Body Body.Empty, error := none }

/-- C10 witness: deleting cookie `a` on the concrete response. -/
theorem c10_witness :
    CONTENT_TYPE ≠ SET_COOKIE ∧
    ((cookieResponse.del_cookie parseDemo "a").1 =
      ((getAll cookieResponse.head.headers SET_COOKIE).filter
        (fun v => parseDemo v == some "a")).length ∧
    getAll (cookieResponse.del_cookie parseDemo "a").2.head.headers SET_COOKIE =
      (getAll cookieResponse.head.headers SET_COOKIE).filter
        (fun v => !(parseDemo v == some "a")) ∧
    getAll (cookieResponse.del_cookie parseDemo "a").2.head.headers
        CONTENT_TYPE =
      getAll cookieResponse.head.headers CONTENT_TYPE) :=
  ⟨by decide, c10_del_cookie parseDemo "a" cookieResponse CONTENT_TYPE
    (by decide)⟩

end ActixResponse
